import Mathlib

/-!
Verification of the AI-Recruitor interview platform: a shallow embedding of
the session-lifecycle login handler (server/routes.ts), the interview update
handler (server/routes.ts together with shared/schema.ts validation), and the
voice conversation engine (server/voice-service.ts).

Timestamps are integers, milliseconds since the epoch, exactly the values of
JavaScript Date.getTime(); wall-clock reads and generated UUIDs are passed in
as explicit arguments.  Nullable database columns are Option fields.
-/

namespace AIRecruitor

/-! ## JavaScript string primitives -/

/-- Numeric value of a list of decimal digits, most significant first. -/
def digitsToNat (ds : List Char) : Nat :=
  ds.foldl (fun a c => a * 10 + (c.toNat - 48)) 0

/-- Model of JavaScript parseInt (radix 10): skip leading whitespace, read an
optional sign, then the longest prefix of decimal digits; `none` models NaN
(no digit found).  The hexadecimal autodetection of parseInt is not modelled;
every numeral this repository stores or sends is plain decimal. -/
def jsParseInt (s : String) : Option Int :=
  let l := s.toList.dropWhile (fun c => c == ' ' || c == '\t' || c == '\n' || c == '\r')
  match l with
  | '-' :: r =>
    let ds := r.takeWhile Char.isDigit
    if ds.isEmpty then none else some (-(digitsToNat ds : Int))
  | '+' :: r =>
    let ds := r.takeWhile Char.isDigit
    if ds.isEmpty then none else some (digitsToNat ds : Int)
  | _ =>
    let ds := l.takeWhile Char.isDigit
    if ds.isEmpty then none else some (digitsToNat ds : Int)

/-- JavaScript `x || d` on an optional string: null/undefined and the empty
string are falsy and fall through to the default. -/
def jsOr (x : Option String) (d : String) : String :=
  match x with
  | none => d
  | some s => if s = "" then d else s

/-! ## Interview records (shared/schema.ts, table `interviews`) -/

/-- One row of the `interviews` table.  `startTime`, `endTime`,
`sessionStartedAt` and `sessionDeadline` are millisecond timestamps;
`durationMinutes` and `currentQuestionIndex` are varchar columns, kept as
strings just as the database stores them. -/
structure Interview where
  id : String
  password : String
  candidateName : String
  candidateEmail : Option String
  role : String
  startTime : Int
  endTime : Int
  durationMinutes : Option String
  isUsed : Bool
  isStarted : Bool
  sessionStartedAt : Option Int
  sessionDeadline : Option Int
  currentQuestionIndex : Option String
deriving DecidableEq, Repr

/-- The `InterviewSession` response shape of a successful login
(shared/schema.ts).  `currentQuestionIndex` is `parseInt` applied to a stored
varchar, so it can be NaN, modelled as `none`. -/
structure InterviewSession where
  id : String
  candidateName : String
  role : String
  startTime : Int
  endTime : Int
  remainingSeconds : Int
  currentQuestionIndex : Option Int
deriving DecidableEq, Repr

/-- Outcome of POST /api/auth/login, one constructor per distinct response the
handler writes: 404 not found, 401 invalid password, 403 with `type:
"expired"` (three different message strings), 403 with `type: "not_started"`
and a `scheduledTime` payload, 200 with a session, and the catch-all 500. -/
inductive LoginResult where
  | notFound : LoginResult
  | badCredentials : LoginResult
  | expired (message : String) : LoginResult
  | notStarted (scheduledTime : Int) : LoginResult
  | success (session : InterviewSession) : LoginResult
  | serverError : LoginResult
deriving DecidableEq, Repr

/-- The login handler of POST /api/auth/login (server/routes.ts).  Its only
storage effects are reads and updates of the single record looked up by id,
so the handler is modelled on that record: the first component is the
response, the second the record as it stands after the call
(`storage.updateInterview` merges partial updates into the stored row). -/
def loginHandler (rec : Option Interview) (password : String) (now : Int) :
    LoginResult × Option Interview :=
  match rec with
  | none => (.notFound, none)
  | some interview =>
    if interview.password ≠ password then
      (.badCredentials, some interview)
    else if interview.isUsed then
      (.expired "This interview has already been completed", some interview)
    else
      match interview.isStarted, interview.sessionDeadline with
      | true, some sessionDeadline =>
        -- single-use enforcement: the interview was already started
        if sessionDeadline < now then
          (.expired "Interview session has expired",
           some { interview with isUsed := true })
        else
          -- re-login (page refresh): remaining time comes from the stored deadline
          (.success
            { id := interview.id
              candidateName := interview.candidateName
              role := interview.role
              startTime := interview.startTime
              endTime := sessionDeadline
              remainingSeconds := max 0 ((sessionDeadline - now).fdiv 1000)
              currentQuestionIndex :=
                jsParseInt (jsOr interview.currentQuestionIndex "0") },
           some interview)
      | _, _ =>
        if now < interview.startTime then
          (.notStarted interview.startTime, some interview)
        else if interview.endTime < now then
          (.expired "Interview link has expired",
           some { interview with isUsed := true })
        else
          match jsParseInt (jsOr interview.durationMinutes "60") with
          | none =>
            -- parseInt returned NaN, so the computed deadline is an Invalid
            -- Date (stored here as none); serializing it throws, which the
            -- catch-all turns into a 500 response.
            (.serverError,
             some { interview with
                      isStarted := true
                      sessionStartedAt := some now
                      sessionDeadline := none })
          | some durationMinutes =>
            let sessionDeadline :=
              min (now + durationMinutes * 60 * 1000) interview.endTime
            let remainingSeconds := max 0 ((sessionDeadline - now).fdiv 1000)
            (.success
              { id := interview.id
                candidateName := interview.candidateName
                role := interview.role
                startTime := interview.startTime
                endTime := sessionDeadline
                remainingSeconds := remainingSeconds
                currentQuestionIndex :=
                  jsParseInt (jsOr interview.currentQuestionIndex "0") },
             some { interview with
                      isStarted := true
                      sessionStartedAt := some now
                      sessionDeadline := some sessionDeadline })

/-! ## Interview update (PATCH /api/interviews/:id) -/

/-- A JSON value admitted by `updateInterviewSchema.currentQuestionIndex`,
which is `z.union([z.number(), z.string()])`.  JSON numbers are modelled as
integers (the repository only ever sends integer indices). -/
inductive QIndexValue where
  | num (n : Int) : QIndexValue
  | str (s : String) : QIndexValue
deriving DecidableEq, Repr

/-- A PATCH /api/interviews/:id body, after JSON parsing.  A present `isUsed`
field carries a boolean; `updateInterviewSchema` only validates when it is
literally `true`. -/
structure UpdatePayload where
  isUsed : Option Bool
  currentQuestionIndex : Option QIndexValue
deriving DecidableEq, Repr

/-- Outcome of PATCH /api/interviews/:id: 404, 400 on schema validation
failure, or 200 with the updated (password-sanitized) record. -/
inductive PatchResult where
  | notFound : PatchResult
  | invalidData : PatchResult
  | ok (updated : Interview) : PatchResult
deriving DecidableEq, Repr

/-- The coercion of the handler: a number is taken as is, a string goes
through `parseInt`; `none` models NaN. -/
def toIndexNumber : QIndexValue → Option Int
  | .num n => some n
  | .str s => jsParseInt s

/-- The `updates` object of the PATCH handler, merged into the record:
`isUsed` is copied only when given as true; the index is stored as a decimal
string only when it coerces to a number in [0, 7]. -/
def applyUpdates (interview : Interview) (p : UpdatePayload) : Interview :=
  let i1 := if p.isUsed = some true then { interview with isUsed := true }
            else interview
  match p.currentQuestionIndex with
  | none => i1
  | some v =>
    match toIndexNumber v with
    | none => i1
    | some n =>
      if 0 ≤ n ∧ n ≤ 7 then
        { i1 with currentQuestionIndex := some (toString n) }
      else i1

/-- The PATCH /api/interviews/:id handler (server/routes.ts): validates the
body against `updateInterviewSchema` (`isUsed` must be absent or literally
true) and merges the accepted updates into the stored record. -/
def patchInterview (rec : Option Interview) (p : UpdatePayload) :
    PatchResult × Option Interview :=
  match rec with
  | none => (.notFound, none)
  | some interview =>
    if p.isUsed = some false then
      (.invalidData, some interview)
    else
      (.ok (applyUpdates interview p), some (applyUpdates interview p))

/-! ## Voice conversation engine (server/voice-service.ts) -/

/-- Author of a transcript message. -/
inductive MsgRole where
  | ai : MsgRole
  | candidate : MsgRole
deriving DecidableEq, Repr

/-- A `TranscriptMessage`.  The random UUID `id` and the optional
`audioUrl`/`duration` fields carry no logic and are not modelled; the
timestamp string is the ISO clock reading passed into each operation. -/
structure TranscriptMessage where
  role : MsgRole
  text : String
  timestamp : String
deriving DecidableEq, Repr

/-- The fixed interview question list `DEFAULT_QUESTIONS`. -/
def DEFAULT_QUESTIONS : List String :=
  [ "Tell me about yourself.",
    "Why do you want this job?",
    "What are your greatest strengths?",
    "Describe a challenge you overcame.",
    "Where do you see yourself in 5 years?",
    "Why should we hire you?",
    "Tell me about a time you worked in a team.",
    "How do you handle stress and pressure?" ]

namespace AI_RESPONSES

/-- The greeting template; `{candidateName}` is substituted at session start. -/
def greeting : String :=
  "Hello {candidateName}, let\x27s start your interview. I\x27m excited to learn more about you. Let\x27s begin with the first question."

/-- Fixed acknowledgment sent after every non-final answer. -/
def acknowledgment : String :=
  "Thank you for that response. That\x27s interesting. Let me ask you the next question."

/-- Fixed closing sent after the final answer. -/
def closing : String :=
  "Thank you for completing this interview. Your responses have been recorded. The hiring team will review them and get back to you soon."

/-- Fixed re-prompt on unintelligible audio (unused by the turn engine). -/
def error : String :=
  "I didn\x27t quite catch that. Could you please repeat your answer?"

end AI_RESPONSES

/-- A `VoiceInterviewSession`, the per-session in-memory state. -/
structure VoiceInterviewSession where
  interviewId : String
  sessionId : String
  candidateName : String
  role : String
  startedAt : String
  messages : List TranscriptMessage
  currentQuestionIndex : Nat
  isActive : Bool
deriving DecidableEq, Repr

/-- The in-memory `sessions` map of `VoiceInterviewService`. -/
def SessionMap : Type := String → Option VoiceInterviewSession

/-- The transcript record written by `saveTranscript`. -/
structure Transcript where
  interviewId : String
  sessionId : String
  candidateName : String
  role : String
  startedAt : String
  completedAt : String
  messages : List TranscriptMessage
  totalQuestions : Nat
  questionsAnswered : Nat
deriving DecidableEq, Repr

/-- The transcript files on disk, keyed by the
`interviewId-sessionId` pair that names the file. -/
def TranscriptStore : Type := String × String → Option Transcript

/-- Model of `saveTranscript`: serialize the session (with `questionsAnswered =
currentQuestionIndex + 1` and `completedAt = now`) and overwrite the file for
its key.  The write can fail; the method swallows the failure, so the store
is simply left unchanged when `ok` is false. -/
def saveTranscript (ok : Bool) (ts : TranscriptStore)
    (s : VoiceInterviewSession) (now : String) : TranscriptStore :=
  if ok then
    fun k =>
      if k = (s.interviewId, s.sessionId) then
        some
          { interviewId := s.interviewId
            sessionId := s.sessionId
            candidateName := s.candidateName
            role := s.role
            startedAt := s.startedAt
            completedAt := now
            messages := s.messages
            totalQuestions := DEFAULT_QUESTIONS.length
            questionsAnswered := s.currentQuestionIndex + 1 }
      else ts k
  else ts

/-- Model of `startVoiceInterview`: allocate the session under the freshly generated
`sessionId` (passed in, as the UUID source is external), seed it with the
name-substituted greeting, cursor 0, active. -/
def startVoiceInterview (m : SessionMap)
    (sessionId interviewId candidateName role now : String) :
    VoiceInterviewSession × SessionMap :=
  let greeting := AI_RESPONSES.greeting.replace "{candidateName}" candidateName
  let s : VoiceInterviewSession :=
    { interviewId := interviewId
      sessionId := sessionId
      candidateName := candidateName
      role := role
      startedAt := now
      messages := [{ role := .ai, text := greeting, timestamp := now }]
      currentQuestionIndex := 0
      isActive := true }
  (s, fun x => if x = sessionId then some s else m x)

/-- The result value of `processAudioAndRespond`. -/
structure TurnOutput where
  aiResponse : String
  nextQuestion : String
  sessionEnded : Bool
deriving DecidableEq, Repr

/-- Model of `processAudioAndRespond`: look the session up (throwing "Session not
found" when absent), append the candidate message, advance the cursor and
acknowledge while questions remain or close the session otherwise, append the
AI message, and save the transcript (`ok` is the fate of that fallible
write).  Returns the response together with the session map and transcript
store after the call. -/
def processAudioAndRespond (ok : Bool) (m : SessionMap) (ts : TranscriptStore)
    (sessionId candidateText now : String) :
    Except String TurnOutput × SessionMap × TranscriptStore :=
  match m sessionId with
  | none => (.error "Session not found", m, ts)
  | some session =>
    let s1 :=
      { session with
          messages := session.messages ++
            [({ role := .candidate, text := candidateText,
                timestamp := now } : TranscriptMessage)] }
    let shouldContinue := s1.currentQuestionIndex < DEFAULT_QUESTIONS.length - 1
    let s2 :=
      if shouldContinue then
        { s1 with currentQuestionIndex := s1.currentQuestionIndex + 1 }
      else
        { s1 with isActive := false }
    let aiResponse :=
      if shouldContinue then AI_RESPONSES.acknowledgment else AI_RESPONSES.closing
    let nextQuestion :=
      if shouldContinue then DEFAULT_QUESTIONS.getD s2.currentQuestionIndex ""
      else ""
    let s3 :=
      { s2 with
          messages := s2.messages ++
            [({ role := .ai, text := aiResponse,
                timestamp := now } : TranscriptMessage)] }
    (.ok { aiResponse := aiResponse, nextQuestion := nextQuestion,
           sessionEnded := !shouldContinue },
     fun x => if x = sessionId then some s3 else m x,
     saveTranscript ok ts s3 now)

/-- Model of `getCurrentQuestion`: throws on an unknown session, else the question at
the cursor, with the empty string when the cursor is out of range. -/
def getCurrentQuestion (m : SessionMap) (sessionId : String) :
    Except String String :=
  match m sessionId with
  | none => .error "Session not found"
  | some s => .ok (DEFAULT_QUESTIONS.getD s.currentQuestionIndex "")

/-- Model of `getTranscript`: read the saved file; a missing file is the caught-error
path and yields null (modelled as none). -/
def getTranscript (ts : TranscriptStore) (interviewId sessionId : String) :
    Option Transcript :=
  ts (interviewId, sessionId)

/-- Model of `endSession`: if the session exists, deactivate it and fire off a
transcript save; unknown ids are silently ignored. -/
def endSession (ok : Bool) (m : SessionMap) (ts : TranscriptStore)
    (sessionId now : String) : SessionMap × TranscriptStore :=
  match m sessionId with
  | none => (m, ts)
  | some s =>
    let s2 := { s with isActive := false }
    (fun x => if x = sessionId then some s2 else m x,
     saveTranscript ok ts s2 now)

/-- Model of `getSessionMessages`: the message list, empty for an unknown session. -/
def getSessionMessages (m : SessionMap) (sessionId : String) :
    List TranscriptMessage :=
  match m sessionId with
  | none => []
  | some s => s.messages

/-! ## Sample records used by the witnesses -/

/-- A fresh, unused interview whose window is [0, 2h) with a 60 minute
session duration. -/
def sampleInterview : Interview :=
  { id := "INT-1"
    password := "PW"
    candidateName := "Ann"
    candidateEmail := none
    role := "Engineer"
    startTime := 0
    endTime := 7200000
    durationMinutes := some "60"
    isUsed := false
    isStarted := false
    sessionStartedAt := none
    sessionDeadline := none
    currentQuestionIndex := some "0" }

/-- An interview already started with a stored session deadline at 4200000. -/
def startedInterview : Interview :=
  { sampleInterview with
      isStarted := true
      sessionStartedAt := some 600000
      sessionDeadline := some 4200000 }

/-- An interview already marked used. -/
def usedInterview : Interview :=
  { sampleInterview with isUsed := true }

/-! ## Theorems -/

/-- C1: a first valid login (correct password, unused, unstarted, inside the
window) marks the record started with `sessionStartedAt = now` and
`sessionDeadline = min(now + durationMinutes*60s, endTime)`, and answers a
session whose `endTime` is that deadline and whose `remainingSeconds` is the
deadline minus now (in whole seconds, clamped below at 0). -/
theorem login_first_valid_login (i : Interview) (pw : String) (now d : Int)
    (hpw : i.password = pw) (hused : i.isUsed = false)
    (hstarted : i.isStarted = false)
    (h1 : i.startTime ≤ now) (h2 : now ≤ i.endTime)
    (hd : jsParseInt (jsOr i.durationMinutes "60") = some d) :
    loginHandler (some i) pw now =
      (.success
        { id := i.id
          candidateName := i.candidateName
          role := i.role
          startTime := i.startTime
          endTime := min (now + d * 60 * 1000) i.endTime
          remainingSeconds :=
            max 0 ((min (now + d * 60 * 1000) i.endTime - now).fdiv 1000)
          currentQuestionIndex :=
            jsParseInt (jsOr i.currentQuestionIndex "0") },
       some { i with
                isStarted := true
                sessionStartedAt := some now
                sessionDeadline := some (min (now + d * 60 * 1000) i.endTime) }) := by
  simp [loginHandler, hpw, hused, hstarted, hd, not_lt.mpr h1, not_lt.mpr h2]

/-- C1 witness: the spec example, window [T0, T0+2h), 60 minute duration,
login at T0+10m stores deadline T0+70m (4200000 ms) with 3600 seconds left. -/
theorem login_first_valid_login_witness :
    sampleInterview.password = "PW" ∧ sampleInterview.isUsed = false ∧
    jsParseInt (jsOr sampleInterview.durationMinutes "60") = some 60 ∧
    loginHandler (some sampleInterview) "PW" 600000 =
      (.success
        { id := "INT-1"
          candidateName := "Ann"
          role := "Engineer"
          startTime := 0
          endTime := 4200000
          remainingSeconds := 3600
          currentQuestionIndex := some 0 },
       some startedInterview) := by
  refine ⟨rfl, rfl, by decide, ?_⟩
  have h := login_first_valid_login sampleInterview "PW" 600000 60
    rfl rfl rfl (by decide) (by decide) (by decide)
  rw [h]
  decide

/-- C2: a re-login within an active started session reads the stored
deadline: it answers the stored `sessionDeadline` as the session `endTime`,
changes no stored field, and two such logins (the second no earlier than the
first) return the same `endTime` with non-increasing `remainingSeconds`. -/
theorem login_relogin_reads_stored_deadline (i : Interview) (pw : String)
    (dl now1 now2 : Int)
    (hpw : i.password = pw) (hused : i.isUsed = false)
    (hstarted : i.isStarted = true) (hdl : i.sessionDeadline = some dl)
    (h12 : now1 ≤ now2) (h2 : now2 ≤ dl) :
    loginHandler (some i) pw now1 =
      (.success
        { id := i.id
          candidateName := i.candidateName
          role := i.role
          startTime := i.startTime
          endTime := dl
          remainingSeconds := max 0 ((dl - now1).fdiv 1000)
          currentQuestionIndex :=
            jsParseInt (jsOr i.currentQuestionIndex "0") },
       some i) ∧
    loginHandler (some i) pw now2 =
      (.success
        { id := i.id
          candidateName := i.candidateName
          role := i.role
          startTime := i.startTime
          endTime := dl
          remainingSeconds := max 0 ((dl - now2).fdiv 1000)
          currentQuestionIndex :=
            jsParseInt (jsOr i.currentQuestionIndex "0") },
       some i) ∧
    max 0 ((dl - now2).fdiv 1000) ≤ max 0 ((dl - now1).fdiv 1000) := by
  have h1 : now1 ≤ dl := le_trans h12 h2
  refine ⟨?_, ?_, ?_⟩
  · simp [loginHandler, hpw, hused, hstarted, hdl, not_lt.mpr h1]
  · simp [loginHandler, hpw, hused, hstarted, hdl, not_lt.mpr h2]
  · refine max_le_max le_rfl ?_
    rw [Int.fdiv_eq_ediv _ (by norm_num), Int.fdiv_eq_ediv _ (by norm_num)]
    exact Int.ediv_le_ediv (by norm_num) (by omega)

/-- C2 witness: two re-logins on a stored deadline of 4200000, at 1200000 and
1800000, both answer `endTime = 4200000` and leave the record untouched, with
2400 remaining seconds after 3000. -/
theorem login_relogin_reads_stored_deadline_witness :
    startedInterview.isStarted = true ∧
    startedInterview.sessionDeadline = some 4200000 ∧
    loginHandler (some startedInterview) "PW" 1200000 =
      (.success
        { id := "INT-1"
          candidateName := "Ann"
          role := "Engineer"
          startTime := 0
          endTime := 4200000
          remainingSeconds := 3000
          currentQuestionIndex := some 0 },
       some startedInterview) ∧
    loginHandler (some startedInterview) "PW" 1800000 =
      (.success
        { id := "INT-1"
          candidateName := "Ann"
          role := "Engineer"
          startTime := 0
          endTime := 4200000
          remainingSeconds := 2400
          currentQuestionIndex := some 0 },
       some startedInterview) := by
  have h := login_relogin_reads_stored_deadline startedInterview "PW" 4200000
    1200000 1800000 rfl rfl rfl rfl (by decide) (by decide)
  refine ⟨rfl, rfl, ?_, ?_⟩
  · rw [h.1]; decide
  · rw [h.2.1]; decide

/-- C3: a used interview is terminal: with the correct password every login
is rejected as expired with no state change, regardless of time; the
password check comes first, so a wrong password on a used interview is
rejected as bad credentials; and the record lookup comes before both. -/
theorem login_used_is_terminal (i : Interview) (pw : String) (now : Int)
    (hused : i.isUsed = true) :
    (i.password = pw →
      loginHandler (some i) pw now =
        (.expired "This interview has already been completed", some i)) ∧
    (i.password ≠ pw →
      loginHandler (some i) pw now = (.badCredentials, some i)) ∧
    loginHandler none pw now = (.notFound, none) := by
  refine ⟨fun hpw => ?_, fun hpw => ?_, rfl⟩
  · simp [loginHandler, hpw, hused]
  · simp [loginHandler, hpw]

/-- C3 witness: the used sample interview rejects a correct-password login as
expired and a wrong-password login as bad credentials, unchanged both times. -/
theorem login_used_is_terminal_witness :
    usedInterview.isUsed = true ∧
    loginHandler (some usedInterview) "PW" 999999999 =
      (.expired "This interview has already been completed",
       some usedInterview) ∧
    loginHandler (some usedInterview) "WRONG" 999999999 =
      (.badCredentials, some usedInterview) := by
  have ha := login_used_is_terminal usedInterview "PW" 999999999 rfl
  have hb := login_used_is_terminal usedInterview "WRONG" 999999999 rfl
  exact ⟨rfl, ha.1 rfl, hb.2.1 (by decide)⟩

/-- A degenerate record whose window is inverted: `startTime = 100` comes
after `endTime = 0`.  Nothing in `insertInterviewSchema` forbids creating
such a record. -/
def invertedWindowInterview : Interview :=
  { sampleInterview with startTime := 100, endTime := 0 }

/-- C4 counterexample: on an unused, unstarted record with `endTime = 0` and
`startTime = 100`, a correct-password login at `now = 50` satisfies the
claim's trigger (`not started and now > endTime`) yet is rejected as
`not_started`, not `expired`, and `isUsed` stays false: the `now < startTime`
check runs before the `now > endTime` check. -/
theorem login_lapsed_window_counterexample :
    invertedWindowInterview.isUsed = false ∧
    invertedWindowInterview.isStarted = false ∧
    invertedWindowInterview.password = "PW" ∧
    invertedWindowInterview.endTime < 50 ∧
    loginHandler (some invertedWindowInterview) "PW" 50 =
      (.notStarted 100, some invertedWindowInterview) ∧
    invertedWindowInterview.isUsed = false := by
  decide

/-- C4 amended: with the correct password on an unused record, if the record
is started with a stored deadline already passed, or is unstarted with `now`
at or after `startTime` and past `endTime`, the login is rejected as expired
and the single call marks the record used. -/
theorem login_expiry_marks_used (i : Interview) (pw : String) (now dl : Int)
    (hused : i.isUsed = false) (hpw : i.password = pw)
    (hcase :
      (i.isStarted = true ∧ i.sessionDeadline = some dl ∧ dl < now) ∨
      (i.isStarted = false ∧ i.startTime ≤ now ∧ i.endTime < now)) :
    ∃ msg, loginHandler (some i) pw now =
      (.expired msg, some { i with isUsed := true }) := by
  rcases hcase with ⟨hs, hd, hlt⟩ | ⟨hs, hge, hlt⟩
  · exact ⟨"Interview session has expired",
      by simp [loginHandler, hpw, hused, hs, hd, hlt]⟩
  · exact ⟨"Interview link has expired",
      by simp [loginHandler, hpw, hused, hs, hlt, not_lt.mpr hge]⟩

/-- C4 amended witness: a login at 9000000 (past the 7200000 window end, after
the 0 start) on the unstarted sample record is rejected as expired and marks
it used; a login at 9000000 on the started record (deadline 4200000) does the
same. -/
theorem login_expiry_marks_used_witness :
    sampleInterview.isUsed = false ∧ sampleInterview.isStarted = false ∧
    (∃ msg, loginHandler (some sampleInterview) "PW" 9000000 =
      (.expired msg, some { sampleInterview with isUsed := true })) ∧
    (∃ msg, loginHandler (some startedInterview) "PW" 9000000 =
      (.expired msg, some { startedInterview with isUsed := true })) := by
  refine ⟨rfl, rfl, ?_, ?_⟩
  · exact login_expiry_marks_used sampleInterview "PW" 9000000 0 rfl rfl
      (Or.inr ⟨rfl, by decide, by decide⟩)
  · exact login_expiry_marks_used startedInterview "PW" 9000000 4200000 rfl rfl
      (Or.inl ⟨rfl, rfl, by decide⟩)

/-- C5: the update handler stores `isUsed` only when the payload gives it as
true (an explicit false fails validation with no change, and a true flag is
never cleared), and stores `currentQuestionIndex`, as the decimal string of
its parsed value, exactly when the payload value parses to a number in
[0, 7]; out-of-range or unparsable values are dropped silently, leaving the
stored index unchanged while the request still succeeds. -/
theorem patch_update_contract (i : Interview) (p : UpdatePayload) :
    (p.isUsed = some false →
      patchInterview (some i) p = (.invalidData, some i)) ∧
    (p.isUsed ≠ some false →
      ∃ i2, patchInterview (some i) p = (.ok i2, some i2) ∧
        (p.isUsed = some true → i2.isUsed = true) ∧
        (p.isUsed = none → i2.isUsed = i.isUsed) ∧
        (i.isUsed = true → i2.isUsed = true) ∧
        (p.currentQuestionIndex = none →
          i2.currentQuestionIndex = i.currentQuestionIndex) ∧
        (∀ v, p.currentQuestionIndex = some v →
          (∀ n, toIndexNumber v = some n → 0 ≤ n → n ≤ 7 →
            i2.currentQuestionIndex = some (toString n)) ∧
          (∀ n, toIndexNumber v = some n → ¬(0 ≤ n ∧ n ≤ 7) →
            i2.currentQuestionIndex = i.currentQuestionIndex) ∧
          (toIndexNumber v = none →
            i2.currentQuestionIndex = i.currentQuestionIndex))) := by
  have hused : (applyUpdates i p).isUsed =
      (if p.isUsed = some true then true else i.isUsed) := by
    unfold applyUpdates
    rcases hq : p.currentQuestionIndex with _ | v
    · by_cases h : p.isUsed = some true <;> simp [h]
    · rcases htn : toIndexNumber v with _ | n
      · by_cases h : p.isUsed = some true <;> simp [h, htn]
      · by_cases hr : 0 ≤ n ∧ n ≤ 7 <;>
          by_cases h : p.isUsed = some true <;> simp [h, htn, hr]
  have hqi : (applyUpdates i p).currentQuestionIndex =
      (match p.currentQuestionIndex with
       | none => i.currentQuestionIndex
       | some v =>
         match toIndexNumber v with
         | none => i.currentQuestionIndex
         | some n =>
           if 0 ≤ n ∧ n ≤ 7 then some (toString n)
           else i.currentQuestionIndex) := by
    unfold applyUpdates
    rcases hq : p.currentQuestionIndex with _ | v
    · by_cases h : p.isUsed = some true <;> simp [h]
    · rcases htn : toIndexNumber v with _ | n
      · by_cases h : p.isUsed = some true <;> simp [h, htn]
      · by_cases hr : 0 ≤ n ∧ n ≤ 7 <;>
          by_cases h : p.isUsed = some true <;> simp [h, htn, hr]
  constructor
  · intro hf
    simp [patchInterview, hf]
  · intro hf
    refine ⟨applyUpdates i p, by simp [patchInterview, hf], ?_, ?_, ?_, ?_, ?_⟩
    · intro ht
      rw [hused, if_pos ht]
    · intro ht
      rw [hused]
      simp [ht]
    · intro ht
      rw [hused]
      by_cases h : p.isUsed = some true <;> simp [h, ht]
    · intro hq
      rw [hqi, hq]
    · intro v hv
      refine ⟨?_, ?_, ?_⟩
      · intro n hn h0 h7
        rw [hqi, hv]
        simp [hn, h0, h7]
      · intro n hn hr
        rw [hqi, hv]
        simp [hn, hr]
      · intro hn
        rw [hqi, hv]
        simp [hn]

/-- C5 witness: on the fresh sample record, a payload with `isUsed = true`
and the numeric string "3" persists index "3" and sets the flag; a payload
with index 9 is accepted but leaves the stored index unchanged; a payload
with `isUsed = false` is rejected unchanged. -/
theorem patch_update_contract_witness :
    (({ isUsed := some false, currentQuestionIndex := none } :
        UpdatePayload).isUsed = some false ∧
      patchInterview (some sampleInterview)
        { isUsed := some false, currentQuestionIndex := none } =
        (.invalidData, some sampleInterview)) ∧
    (∃ i2, patchInterview (some sampleInterview)
        { isUsed := some true, currentQuestionIndex := some (.str "3") } =
        (.ok i2, some i2) ∧ i2.isUsed = true ∧
        i2.currentQuestionIndex = some "3") ∧
    (∃ i2, patchInterview (some sampleInterview)
        { isUsed := none, currentQuestionIndex := some (.num 9) } =
        (.ok i2, some i2) ∧
        i2.currentQuestionIndex = sampleInterview.currentQuestionIndex) := by
  refine ⟨⟨rfl, ?_⟩, ?_, ?_⟩
  · exact (patch_update_contract sampleInterview _).1 rfl
  · obtain ⟨i2, heq, hit, -, -, -, hv⟩ :=
      (patch_update_contract sampleInterview
        { isUsed := some true, currentQuestionIndex := some (.str "3") }).2
        (by decide)
    refine ⟨i2, heq, hit rfl, ?_⟩
    have := ((hv _ rfl).1 3 (by decide) (by decide) (by decide))
    simpa using this
  · obtain ⟨i2, heq, -, -, -, -, hv⟩ :=
      (patch_update_contract sampleInterview
        { isUsed := none, currentQuestionIndex := some (.num 9) }).2
        (by decide)
    exact ⟨i2, heq, (hv _ rfl).2.1 9 rfl (by decide)⟩

/-- Shorthand for a candidate-authored transcript message. -/
def candidateMsg (text now : String) : TranscriptMessage :=
  { role := .candidate, text := text, timestamp := now }

/-- Shorthand for an AI-authored transcript message. -/
def aiMsg (text now : String) : TranscriptMessage :=
  { role := .ai, text := text, timestamp := now }

/-- A voice session whose last question has already been answered. -/
def finishedSession : VoiceInterviewSession :=
  { interviewId := "INT-1"
    sessionId := "S"
    candidateName := "Ann"
    role := "Engineer"
    startedAt := "t0"
    messages := [aiMsg "recorded" "t0"]
    currentQuestionIndex := 7
    isActive := false }

/-- C7: on a session id absent from the map, a turn fails with "Session not
found" and leaves the session map and transcript store exactly as they were
(so nothing is created and no other session is touched), ending the session
is a silent no-op, and the message query answers the empty sequence. -/
theorem voice_unknown_session (ok : Bool) (m : SessionMap)
    (ts : TranscriptStore) (sid text now : String) (h : m sid = none) :
    processAudioAndRespond ok m ts sid text now =
      (.error "Session not found", m, ts) ∧
    endSession ok m ts sid now = (m, ts) ∧
    getSessionMessages m sid = [] := by
  refine ⟨?_, ?_, ?_⟩ <;> simp [processAudioAndRespond, endSession,
    getSessionMessages, h]

/-- C7 witness: on the empty session map and id "S", the turn fails without
touching any state, ending is a no-op, and the messages are empty. -/
theorem voice_unknown_session_witness :
    (fun _ => (none : Option VoiceInterviewSession)) "S" = none ∧
    processAudioAndRespond true (fun _ => none) (fun _ => none) "S" "hi" "t" =
      (.error "Session not found", fun _ => none, fun _ => none) ∧
    endSession true (fun _ => none) (fun _ => none) "S" "t" =
      (fun _ => none, fun _ => none) ∧
    getSessionMessages (fun _ => none) "S" = [] := by
  have h := voice_unknown_session true (fun _ => none) (fun _ => none)
    "S" "hi" "t" rfl
  exact ⟨rfl, h.1, h.2.1, h.2.2⟩

/-- C10: a turn on an existing session never fails, even after the session
has ended: with the cursor already at the last question (index 7) and the
session inactive, a further turn still answers the closing template with
`sessionEnded = true`, appends one candidate and one AI message (two more
messages), and leaves the cursor at 7 with the session inactive. -/
theorem voice_turn_after_completion (ok : Bool) (m : SessionMap)
    (ts : TranscriptStore) (sid text now : String)
    (s : VoiceInterviewSession) (h : m sid = some s)
    (hidx : s.currentQuestionIndex = 7) (_hact : s.isActive = false) :
    processAudioAndRespond ok m ts sid text now =
      (.ok { aiResponse := AI_RESPONSES.closing, nextQuestion := "",
             sessionEnded := true },
       fun x => if x = sid then
           some { s with
                    messages := (s.messages ++
                        [candidateMsg text now]) ++
                      [aiMsg AI_RESPONSES.closing now]
                    isActive := false }
         else m x,
       saveTranscript ok ts
         { s with
             messages := (s.messages ++ [candidateMsg text now]) ++
               [aiMsg AI_RESPONSES.closing now]
             isActive := false } now) ∧
    ((s.messages ++ [candidateMsg text now]) ++
      [aiMsg AI_RESPONSES.closing now]).length = s.messages.length + 2 ∧
    ({ s with
         messages := (s.messages ++ [candidateMsg text now]) ++
           [aiMsg AI_RESPONSES.closing now]
         isActive := false } : VoiceInterviewSession).currentQuestionIndex
      = 7 := by
  refine ⟨?_, by simp, hidx⟩
  simp [processAudioAndRespond, h, hidx, DEFAULT_QUESTIONS, candidateMsg, aiMsg]

/-- C10 witness: a concrete finished session (cursor 7, inactive) under id
"S" accepts one more turn, answers the closing line with ended = true, and
grows from one message to three with the cursor still at 7. -/
theorem voice_turn_after_completion_witness :
    (fun x => if x = "S" then some finishedSession else none) "S" =
      some finishedSession ∧
    finishedSession.currentQuestionIndex = 7 ∧
    finishedSession.isActive = false ∧
    processAudioAndRespond true
        (fun x => if x = "S" then some finishedSession else none)
        (fun _ => none) "S" "bye" "t9" =
      (.ok { aiResponse := AI_RESPONSES.closing, nextQuestion := "",
             sessionEnded := true },
       fun x => if x = "S" then
           some { finishedSession with
                    messages := (finishedSession.messages ++
                        [candidateMsg "bye" "t9"]) ++
                      [aiMsg AI_RESPONSES.closing "t9"]
                    isActive := false }
         else (fun x => if x = "S" then some finishedSession else none) x,
       saveTranscript true (fun _ => none)
         { finishedSession with
             messages := (finishedSession.messages ++
                 [candidateMsg "bye" "t9"]) ++
               [aiMsg AI_RESPONSES.closing "t9"]
             isActive := false } "t9") := by
  have h := voice_turn_after_completion true
    (fun x => if x = "S" then some finishedSession else none)
    (fun _ => none) "S" "bye" "t9" finishedSession (by simp) rfl rfl
  exact ⟨by simp, rfl, rfl, h.1⟩

/-- C9: every turn on an existing session persists the full transcript for
the key (interviewId, sessionId) through `saveTranscript`, which serializes
`questionsAnswered` as the cursor plus one and overwrites any prior save for
that key; a failed write leaves the store untouched while the turn result
and the in-memory session map are identical to the successful-write run (the
turn itself never fails); and loading a never-persisted transcript yields
none, not an empty record. -/
theorem voice_transcript_persistence (ok : Bool) (m : SessionMap)
    (ts : TranscriptStore) (sid text now : String)
    (s : VoiceInterviewSession) (h : m sid = some s)
    (ts2 : TranscriptStore) (iid2 sid2 : String)
    (h2 : ts2 (iid2, sid2) = none) :
    (∃ out, (processAudioAndRespond ok m ts sid text now).1 = .ok out) ∧
    (processAudioAndRespond true m ts sid text now).1 =
      (processAudioAndRespond false m ts sid text now).1 ∧
    (processAudioAndRespond true m ts sid text now).2.1 =
      (processAudioAndRespond false m ts sid text now).2.1 ∧
    (∃ s3, (processAudioAndRespond ok m ts sid text now).2.1 sid = some s3 ∧
      (processAudioAndRespond ok m ts sid text now).2.2 =
        saveTranscript ok ts s3 now ∧
      s3.interviewId = s.interviewId ∧ s3.sessionId = s.sessionId) ∧
    (∀ (ts' : TranscriptStore) (s' : VoiceInterviewSession) (now' : String),
      saveTranscript true ts' s' now' (s'.interviewId, s'.sessionId) =
        some
          { interviewId := s'.interviewId
            sessionId := s'.sessionId
            candidateName := s'.candidateName
            role := s'.role
            startedAt := s'.startedAt
            completedAt := now'
            messages := s'.messages
            totalQuestions := DEFAULT_QUESTIONS.length
            questionsAnswered := s'.currentQuestionIndex + 1 } ∧
      saveTranscript false ts' s' now' = ts') ∧
    getTranscript ts2 iid2 sid2 = none := by
  refine ⟨?_, ?_, ?_, ?_, ?_, h2⟩
  · by_cases hc : s.currentQuestionIndex < DEFAULT_QUESTIONS.length - 1
    · exact ⟨{ aiResponse := AI_RESPONSES.acknowledgment,
               nextQuestion :=
                 DEFAULT_QUESTIONS.getD (s.currentQuestionIndex + 1) "",
               sessionEnded := false },
        by simp [processAudioAndRespond, h, hc]⟩
    · exact ⟨{ aiResponse := AI_RESPONSES.closing, nextQuestion := "",
               sessionEnded := true },
        by simp [processAudioAndRespond, h, hc]⟩
  · simp [processAudioAndRespond, h]
  · simp [processAudioAndRespond, h]
  · by_cases hc : s.currentQuestionIndex < DEFAULT_QUESTIONS.length - 1
    · refine ⟨{ s with
          messages := s.messages ++
            [candidateMsg text now, aiMsg AI_RESPONSES.acknowledgment now]
          currentQuestionIndex := s.currentQuestionIndex + 1 },
        ?_, ?_, rfl, rfl⟩
      · simp [processAudioAndRespond, h, hc, candidateMsg, aiMsg]
      · simp [processAudioAndRespond, h, hc, candidateMsg, aiMsg]
    · refine ⟨{ s with
          messages := s.messages ++
            [candidateMsg text now, aiMsg AI_RESPONSES.closing now]
          isActive := false },
        ?_, ?_, rfl, rfl⟩
      · simp [processAudioAndRespond, h, hc, candidateMsg, aiMsg]
      · simp [processAudioAndRespond, h, hc, candidateMsg, aiMsg]
  · intro ts' s' now'
    exact ⟨by simp [saveTranscript], rfl⟩

/-- C9 witness: a turn on the finished sample session stores a transcript
under ("INT-1", "S") with `questionsAnswered = 8`, a failing write leaves the
empty store empty while the same in-memory map results, and the empty store
answers none for the never-persisted key ("X", "Y"). -/
theorem voice_transcript_persistence_witness :
    (fun x => if x = "S" then some finishedSession else none) "S" =
      some finishedSession ∧
    ((fun _ => none : TranscriptStore) ("X", "Y")) = none ∧
    (∃ out, (processAudioAndRespond true
        (fun x => if x = "S" then some finishedSession else none)
        (fun _ => none) "S" "bye" "t9").1 = .ok out) ∧
    (processAudioAndRespond true
        (fun x => if x = "S" then some finishedSession else none)
        (fun _ => none) "S" "bye" "t9").2.2 ("INT-1", "S") =
      some
        { interviewId := "INT-1"
          sessionId := "S"
          candidateName := "Ann"
          role := "Engineer"
          startedAt := "t0"
          completedAt := "t9"
          messages := [aiMsg "recorded" "t0", candidateMsg "bye" "t9",
            aiMsg AI_RESPONSES.closing "t9"]
          totalQuestions := 8
          questionsAnswered := 8 } ∧
    (processAudioAndRespond false
        (fun x => if x = "S" then some finishedSession else none)
        (fun _ => none) "S" "bye" "t9").2.2 = (fun _ => none) ∧
    getTranscript (fun _ => none) "X" "Y" = none := by
  have h := voice_transcript_persistence true
    (fun x => if x = "S" then some finishedSession else none)
    (fun _ => none) "S" "bye" "t9" finishedSession (by simp)
    (fun _ => none) "X" "Y" rfl
  have hfalse := voice_transcript_persistence false
    (fun x => if x = "S" then some finishedSession else none)
    (fun _ => none) "S" "bye" "t9" finishedSession (by simp)
    (fun _ => none) "X" "Y" rfl
  refine ⟨by simp, rfl, h.1, ?_, ?_, h.2.2.2.2.2⟩
  · obtain ⟨s3, hs3, hstore, hiid, hsid⟩ := h.2.2.2.1
    rw [hstore]
    have hmsgs : s3 = { finishedSession with
        messages := finishedSession.messages ++
          [candidateMsg "bye" "t9", aiMsg AI_RESPONSES.closing "t9"]
        isActive := false } := by
      have hs3' := hs3
      simp [processAudioAndRespond, DEFAULT_QUESTIONS, candidateMsg, aiMsg]
        at hs3'
      exact hs3'.symm
    subst hmsgs
    simp [saveTranscript, finishedSession, DEFAULT_QUESTIONS,
      candidateMsg, aiMsg]
  · obtain ⟨s3, hs3, hstore, hiid, hsid⟩ := hfalse.2.2.2.1
    rw [hstore]
    exact (hfalse.2.2.2.2.1 (fun _ => none) s3 "t9").2

/-- C6: starting a voice session seeds exactly one AI greeting with the
candidate name substituted, cursor 0 and an active session; eight turns in
sequence then answer `sessionEnded = false` on the first seven calls (each
with the acknowledgment and the next question) and `sessionEnded = true`
exactly on the eighth (with the closing line), leaving 17 messages (the
greeting plus a candidate and an AI message per turn), cursor 7, inactive. -/
theorem voice_eight_turn_run
    (sid iid nm rl t0 u1 u2 u3 u4 u5 u6 u7 u8 : String)
    (n1 n2 n3 n4 n5 n6 n7 n8 : String) (ok : Bool) :
    (startVoiceInterview (fun _ => none) sid iid nm rl t0).1.messages =
      [aiMsg (AI_RESPONSES.greeting.replace "{candidateName}" nm) t0] ∧
    (startVoiceInterview (fun _ => none) sid iid nm rl
      t0).1.currentQuestionIndex = 0 ∧
    (startVoiceInterview (fun _ => none) sid iid nm rl t0).1.isActive
      = true ∧
    (let m0 := (startVoiceInterview (fun _ => none) sid iid nm rl t0).2
     let q1 := processAudioAndRespond ok m0 (fun _ => none) sid u1 n1
     let q2 := processAudioAndRespond ok q1.2.1 q1.2.2 sid u2 n2
     let q3 := processAudioAndRespond ok q2.2.1 q2.2.2 sid u3 n3
     let q4 := processAudioAndRespond ok q3.2.1 q3.2.2 sid u4 n4
     let q5 := processAudioAndRespond ok q4.2.1 q4.2.2 sid u5 n5
     let q6 := processAudioAndRespond ok q5.2.1 q5.2.2 sid u6 n6
     let q7 := processAudioAndRespond ok q6.2.1 q6.2.2 sid u7 n7
     let q8 := processAudioAndRespond ok q7.2.1 q7.2.2 sid u8 n8
     q1.1 = .ok ⟨AI_RESPONSES.acknowledgment,
       "Why do you want this job?", false⟩ ∧
     q2.1 = .ok ⟨AI_RESPONSES.acknowledgment,
       "What are your greatest strengths?", false⟩ ∧
     q3.1 = .ok ⟨AI_RESPONSES.acknowledgment,
       "Describe a challenge you overcame.", false⟩ ∧
     q4.1 = .ok ⟨AI_RESPONSES.acknowledgment,
       "Where do you see yourself in 5 years?", false⟩ ∧
     q5.1 = .ok ⟨AI_RESPONSES.acknowledgment,
       "Why should we hire you?", false⟩ ∧
     q6.1 = .ok ⟨AI_RESPONSES.acknowledgment,
       "Tell me about a time you worked in a team.", false⟩ ∧
     q7.1 = .ok ⟨AI_RESPONSES.acknowledgment,
       "How do you handle stress and pressure?", false⟩ ∧
     q8.1 = .ok ⟨AI_RESPONSES.closing, "", true⟩ ∧
     (q8.2.1 sid).map
       (fun s => (s.messages.length, s.currentQuestionIndex, s.isActive)) =
         some (17, 7, false)) := by
  refine ⟨rfl, rfl, rfl, ?_⟩
  simp [startVoiceInterview, processAudioAndRespond, saveTranscript,
    DEFAULT_QUESTIONS, candidateMsg, aiMsg]

/-- Wire encoding of each login response as routes.ts serializes it: the
HTTP status paired with the optional machine-readable `type` field of the
JSON body (the free-text `message` is deliberately left out). -/
def rejectionWire : LoginResult → Option (Nat × Option String)
  | .notFound => some (404, none)
  | .badCredentials => some (401, none)
  | .expired _ => some (403, some "expired")
  | .notStarted _ => some (403, some "not_started")
  | .success _ => none
  | .serverError => some (500, none)

/-- Constructor class of a login result, used to state that the wire
encoding alone determines which case occurred. -/
def caseTag : LoginResult → Nat
  | .notFound => 0
  | .badCredentials => 1
  | .expired _ => 2
  | .notStarted _ => 3
  | .success _ => 4
  | .serverError => 5

/-- C8: under a parsable duration every login response is a success or
carries one of the four discriminated wire codes (404 not_found, 401
bad_credentials, 403/not_started, 403/expired); the wire code alone
determines the case, with no two of the four sharing a code; the
not_started rejection carries the scheduled start time; and the three
expiry scenarios (already used, session deadline passed, window passed) all
map to the 403/expired code. -/
theorem login_rejection_kinds (i : Interview) (pw : String) (now d : Int)
    (hd : jsParseInt (jsOr i.durationMinutes "60") = some d) :
    rejectionWire (loginHandler (some i) pw now).1 ∈
      [none, some (404, (none : Option String)), some (401, none),
       some (403, some "not_started"), some (403, some "expired")] ∧
    (∀ r : LoginResult, rejectionWire r = none ↔ ∃ s, r = .success s) ∧
    (∀ r1 r2 : LoginResult, rejectionWire r1 = rejectionWire r2 →
      caseTag r1 = caseTag r2) ∧
    (loginHandler none pw now).1 = .notFound ∧
    (i.password ≠ pw → (loginHandler (some i) pw now).1 = .badCredentials) ∧
    (i.password = pw → i.isUsed = false → i.isStarted = false →
      now < i.startTime →
      (loginHandler (some i) pw now).1 = .notStarted i.startTime) ∧
    (i.password = pw → i.isUsed = true →
      rejectionWire (loginHandler (some i) pw now).1 =
        some (403, some "expired")) ∧
    (∀ dl : Int, i.password = pw → i.isUsed = false → i.isStarted = true →
      i.sessionDeadline = some dl → dl < now →
      rejectionWire (loginHandler (some i) pw now).1 =
        some (403, some "expired")) ∧
    (i.password = pw → i.isUsed = false → i.isStarted = false →
      i.startTime ≤ now → i.endTime < now →
      rejectionWire (loginHandler (some i) pw now).1 =
        some (403, some "expired")) := by
  refine ⟨?_, ?_, ?_, rfl, ?_, ?_, ?_, ?_, ?_⟩
  · unfold loginHandler
    repeat' split
    all_goals simp_all [rejectionWire]
  · intro r
    cases r <;> simp [rejectionWire]
  · intro r1 r2 hw
    cases r1 <;> cases r2 <;> simp_all [rejectionWire, caseTag]
  · intro hp
    simp [loginHandler, hp]
  · intro hp hu hs h1
    simp [loginHandler, hp, hu, hs, h1]
  · intro hp hu
    simp [loginHandler, hp, hu, rejectionWire]
  · intro dl hp hu hs hsd hlt
    simp [loginHandler, hp, hu, hs, hsd, hlt, rejectionWire]
  · intro hp hu hs h1 h2
    simp [loginHandler, hp, hu, hs, h2, not_lt.mpr h1, rejectionWire]

/-- C8 witness: on the sample interview with a parsable "60" duration, a
correct-password login past the window carries the 403/expired wire code and
a wrong-password login carries the 401 code. -/
theorem login_rejection_kinds_witness :
    jsParseInt (jsOr sampleInterview.durationMinutes "60") = some 60 ∧
    rejectionWire (loginHandler (some sampleInterview) "PW" 9000000).1 =
      some (403, some "expired") ∧
    rejectionWire (loginHandler (some sampleInterview) "BAD" 9000000).1 =
      some (401, none) := by
  have h := login_rejection_kinds sampleInterview "PW" 9000000 60 (by decide)
  have h2 := login_rejection_kinds sampleInterview "BAD" 9000000 60 (by decide)
  refine ⟨by decide, ?_, ?_⟩
  · exact h.2.2.2.2.2.2.2.2 rfl rfl rfl (by decide) (by decide)
  · rw [h2.2.2.2.2.1 (by decide)]
    rfl

end AIRecruitor
